import Mathlib

/-!
Verification development for the keiba-scatter pipeline (`pipeline.py`).

The pipeline joins per-venue track-condition records to each horse's
historical runs, classifies each joined run against the target race, and
renders one scatter-plot document per race plus an index.  This file gives a
shallow embedding of the venue codec, the condition-store join
(`link_cushion_data`), the classifier and renderer data path
(`generate_scatter_html`), the index builder (`generate_index`) and the main
loop's race filtering, together with theorems checking the documented
properties of each component.

Modelling conventions: Python floats are embedded as `ℚ`; a Python value that
may be `None` is an `Option`; a JSON object is an association list whose keys
are unique (so first-match lookup agrees with the dict); a raised exception is
`Except.error` carrying a message.
-/

namespace KeibaScatter

/-- `VENUE_CODES` (pipeline.py:29-33): two-digit code → canonical venue name. -/
def VENUE_CODES : List (String × String) :=
  [("01", "札幌"), ("02", "函館"), ("03", "福島"), ("04", "新潟"),
   ("05", "東京"), ("06", "中山"), ("07", "中京"), ("08", "京都"),
   ("09", "阪神"), ("10", "小倉")]

/-- Python dict lookup `d.get(key)` over an association list; loaded JSON
objects have unique keys, so first-match lookup is the dict's mapping. -/
def dictGet {α : Type} : List (String × α) → String → Option α
  | [], _ => none
  | (k, v) :: rest, key => if key = k then some v else dictGet rest key

/-- `VENUE_CODES.get(venue_code, '?')` (pipeline.py:97,144). -/
def decodeVenue (code : String) : String := (dictGet VENUE_CODES code).getD "?"

/-- A horse's historical run as assembled by `get_horse_results`
(pipeline.py:222-229); `cushion` and `moisture` are absent until
`link_cushion_data` populates them (modelled as `none` initially). -/
structure HistoricalRun where
  date : String
  venue : String
  surface : String
  distance : Nat
  race_name : String
  result : Option Nat
  cushion : Option ℚ := none
  moisture : Option ℚ := none
deriving Repr, DecidableEq

/-- One entry of the persisted condition table `cushion_db_full.json`
(pipeline.py:644-645).  `cushion` is typed `float` by the external-interface
contract but the field may be absent from a malformed entry (`none` here);
accessing it then raises `KeyError`.  `turf_goal` / `dirt_goal` are read with
`.get`, which treats an absent field and a JSON null alike, so a single
`Option` layer suffices for them. -/
structure DbEntry where
  cushion : Option ℚ
  turf_goal : Option ℚ
  dirt_goal : Option ℚ
deriving Repr, DecidableEq

/-- `race_info` of a cached race document (pipeline.py:172-178). -/
structure RaceInfo where
  race_id : String
  race_name : String
  venue : String
  surface : String
  distance : Nat
deriving Repr, DecidableEq

/-- A cached race document (pipeline.py:171-180): race info plus `horses`, an
insertion-ordered mapping from horse name to that horse's runs (Python dicts
keep insertion order, modelled as an association list). -/
structure RaceData where
  race_info : RaceInfo
  horses : List (String × List HistoricalRun)
deriving Repr, DecidableEq

/-- The join key `f"{date}_{venue}"` (pipeline.py:245). -/
def joinKey (r : HistoricalRun) : String := r.date ++ "_" ++ r.venue

/-- One iteration of the inner loop of `link_cushion_data`
(pipeline.py:240-255).  `r.get('surface', '芝')` is `r.surface` here because
every acquired run carries a surface string.  On a lookup hit,
`entry['cushion']` raises `KeyError` when the field is absent (`.error`);
`entry.get('dirt_goal')` / `entry.get('turf_goal')` never raise.  On a miss,
both fields are set to `None`. -/
def linkRun (db : List (String × DbEntry)) (r : HistoricalRun) :
    Except String HistoricalRun :=
  match dictGet db (joinKey r) with
  | some entry =>
    match entry.cushion with
    | none => .error "KeyError: cushion"
    | some c =>
      if r.surface = "ダ" ∨ r.surface = "ダート" then
        .ok { r with cushion := some c, moisture := entry.dirt_goal }
      else
        .ok { r with cushion := some c, moisture := entry.turf_goal }
  | none => .ok { r with cushion := none, moisture := none }

/-- The inner `for r in races` loop of `link_cushion_data`: first raised
exception propagates. -/
def linkRuns (db : List (String × DbEntry)) :
    List HistoricalRun → Except String (List HistoricalRun)
  | [] => .ok []
  | r :: rest =>
    match linkRun db r with
    | .error e => .error e
    | .ok r' =>
      match linkRuns db rest with
      | .error e => .error e
      | .ok rest' => .ok (r' :: rest')

/-- The outer `for horse_name, races in race_data['horses'].items()` loop of
`link_cushion_data`. -/
def linkHorses (db : List (String × DbEntry)) :
    List (String × List HistoricalRun) →
      Except String (List (String × List HistoricalRun))
  | [] => .ok []
  | (name, runs) :: rest =>
    match linkRuns db runs with
    | .error e => .error e
    | .ok runs' =>
      match linkHorses db rest with
      | .error e => .error e
      | .ok rest' => .ok ((name, runs') :: rest')

/-- `link_cushion_data` (pipeline.py:237-257): attach cushion/moisture to
every run of every horse; an uncaught `KeyError` propagates. -/
def link_cushion_data (rd : RaceData) (db : List (String × DbEntry)) :
    Except String RaceData :=
  match linkHorses db rd.horses with
  | .error e => .error e
  | .ok hs => .ok { rd with horses := hs }

/-! ### Concrete fixtures used by witnesses and counterexamples -/

/-- Condition-table fixture from the specification's join example. -/
def dbEx : List (String × DbEntry) :=
  [("20260215_東京",
    { cushion := some 9.8, turf_goal := some 11.2, dirt_goal := some 4.5 })]

/-- A turf historical run dated 2026-02-15 at 東京, before the join. -/
def runTurf : HistoricalRun :=
  { date := "20260215", venue := "東京", surface := "芝", distance := 1600,
    race_name := "スペック例", result := some 1 }

/-- The same run on dirt. -/
def runDirt : HistoricalRun := { runTurf with surface := "ダ" }

/-- A turf run dated 2026-01-01 at 東京, before the join. -/
def runHit : HistoricalRun :=
  { date := "20260101", venue := "東京", surface := "芝", distance := 2000,
    race_name := "例レース", result := some 2 }

/-- A one-horse race document containing only `runHit`. -/
def rdHit : RaceData :=
  { race_info := { race_id := "202605010211", race_name := "例",
                   venue := "東京", surface := "芝", distance := 1600 },
    horses := [("ウマ", [runHit])] }

/-- A condition table whose only entry matches `runHit` but has a null
(turf) moisture field. -/
def dbPartial : List (String × DbEntry) :=
  [("20260101_東京", { cushion := some 9.5, turf_goal := none, dirt_goal := none })]

/-- A malformed condition table: the entry matching `runHit` is missing the
`cushion` field. -/
def dbBad : List (String × DbEntry) :=
  [("20260101_東京", { cushion := none, turf_goal := some 11.0, dirt_goal := none })]

/-- `runHit` after a join against a table with no matching key. -/
def runMiss : HistoricalRun := { runHit with cushion := none, moisture := none }

/-- `rdHit` after a join against the empty table. -/
def rdHitMiss : RaceData := { rdHit with horses := [("ウマ", [runMiss])] }

/-! ### Join-engine lemmas -/

/-- A successfully joined run with null cushion also has null moisture: the
only branch of `linkRun` producing a null cushion is the lookup miss, which
nulls both fields. -/
theorem linkRun_cushion_none {db : List (String × DbEntry)}
    {r r' : HistoricalRun} (h : linkRun db r = .ok r')
    (hc : r'.cushion = none) : r'.moisture = none := by
  unfold linkRun at h
  split at h
  · split at h
    · cases h
    · split at h
      · cases h; simp at hc
      · cases h; simp at hc
  · cases h; rfl

/-- Every run in the output of `linkRuns` is the successful `linkRun` image
of some run of the input list. -/
theorem linkRuns_mem {db : List (String × DbEntry)} :
    ∀ {l l' : List HistoricalRun}, linkRuns db l = .ok l' →
      ∀ r' ∈ l', ∃ r ∈ l, linkRun db r = .ok r'
  | [], l', h => by
    cases h
    intro r' hr'
    cases hr'
  | r :: rest, l', h => by
    unfold linkRuns at h
    cases h1 : linkRun db r with
    | error e => rw [h1] at h; cases h
    | ok r1 =>
      rw [h1] at h
      cases h2 : linkRuns db rest with
      | error e => rw [h2] at h; cases h
      | ok rest' =>
        rw [h2] at h
        cases h
        intro r' hr'
        rcases List.mem_cons.mp hr' with heq | hmem
        · exact ⟨r, List.mem_cons_self r rest, heq ▸ h1⟩
        · obtain ⟨r0, hr0, hr0'⟩ := linkRuns_mem h2 r' hmem
          exact ⟨r0, List.mem_cons_of_mem r hr0, hr0'⟩

/-- Every horse entry in the output of `linkHorses` has its run list produced
by a successful `linkRuns` on some input horse's runs. -/
theorem linkHorses_mem {db : List (String × DbEntry)} :
    ∀ {hs hs' : List (String × List HistoricalRun)},
      linkHorses db hs = .ok hs' →
      ∀ p' ∈ hs', ∃ p ∈ hs, linkRuns db p.2 = .ok p'.2
  | [], hs', h => by
    cases h
    intro p' hp'
    cases hp'
  | (name, runs) :: rest, hs', h => by
    unfold linkHorses at h
    cases h1 : linkRuns db runs with
    | error e => rw [h1] at h; cases h
    | ok runs' =>
      rw [h1] at h
      cases h2 : linkHorses db rest with
      | error e => rw [h2] at h; cases h
      | ok rest' =>
        rw [h2] at h
        cases h
        intro p' hp'
        rcases List.mem_cons.mp hp' with heq | hmem
        · exact ⟨(name, runs), List.mem_cons_self _ rest, by rw [heq]; exact h1⟩
        · obtain ⟨p0, hp0, hp0'⟩ := linkHorses_mem h2 p' hmem
          exact ⟨p0, List.mem_cons_of_mem _ hp0, hp0'⟩

/-! ### Claims C1, C2, C3, C7 -/

/-- C1 (corrected): after a successful `link_cushion_data`, a run with null
`cushion` also has null `moisture` (a lookup miss nulls both fields); the
converse direction of the claimed iff fails, see `C1_counterexample`. -/
theorem C1_amended_null_cushion_propagates (rd : RaceData)
    (db : List (String × DbEntry)) (rd' : RaceData)
    (h : link_cushion_data rd db = .ok rd') :
    ∀ p ∈ rd'.horses, ∀ r ∈ p.2, r.cushion = none → r.moisture = none := by
  intro p hp r hr hc
  unfold link_cushion_data at h
  cases hh : linkHorses db rd.horses with
  | error e => rw [hh] at h; cases h
  | ok hs =>
    rw [hh] at h
    cases h
    obtain ⟨p0, _, hruns⟩ := linkHorses_mem hh p hp
    obtain ⟨r0, _, hlink⟩ := linkRuns_mem hruns r hr
    exact linkRun_cushion_none hlink hc

/-- C1, discharged at a concrete input: closed corollary of the amended
theorem.  The joined run of `rdHitMiss` has null cushion and null moisture. -/
theorem C1_amended_witness : runMiss.moisture = none :=
  C1_amended_null_cushion_propagates rdHit [] rdHitMiss rfl
    ("ウマ", [runMiss]) (by simp [rdHitMiss]) runMiss (by simp) rfl

/-- C1 counterexample: when the lookup hits but the surface-selected moisture
field is null, `link_cushion_data` leaves `cushion` populated while
`moisture` is null, refuting the claimed "cushion null iff moisture null"
invariant. -/
theorem C1_counterexample :
    link_cushion_data rdHit dbPartial =
      .ok { rdHit with
            horses := [("ウマ",
              [{ runHit with cushion := some 9.5, moisture := none }])] } ∧
    ({ runHit with cushion := some 9.5, moisture := none } :
        HistoricalRun).cushion ≠ none ∧
    ({ runHit with cushion := some 9.5, moisture := none } :
        HistoricalRun).moisture = none :=
  ⟨rfl, by simp, rfl⟩

/-- C2 (corrected): `linkRun` raises (aborting the run) exactly when the
condition-store lookup hits an entry whose `cushion` field is absent; the
load performs no validation, so such malformed entries are not skipped. -/
theorem C2_amended_malformed_entry_raises (db : List (String × DbEntry))
    (r : HistoricalRun) :
    (∃ e, linkRun db r = .error e) ↔
      ∃ entry, dictGet db (joinKey r) = some entry ∧ entry.cushion = none := by
  unfold linkRun
  cases hl : dictGet db (joinKey r) with
  | none => simp
  | some entry =>
    cases hcu : entry.cushion with
    | none => simp [hcu]
    | some c =>
      by_cases hs : r.surface = "ダ" ∨ r.surface = "ダート" <;>
        simp [hs, hcu]

/-- C2 amended theorem at a concrete input: the malformed entry of `dbBad`
(missing `cushion`) makes the join raise. -/
theorem C2_amended_witness : ∃ e, linkRun dbBad runHit = .error e :=
  (C2_amended_malformed_entry_raises dbBad runHit).mpr
    ⟨{ cushion := none, turf_goal := some 11.0, dirt_goal := none }, rfl, rfl⟩

/-- C2 counterexample: a condition table containing one malformed entry
(missing the `cushion` field) is not skipped at load; the first join that
hits it raises `KeyError`, aborting the whole run instead of degrading. -/
theorem C2_counterexample :
    link_cushion_data rdHit dbBad = .error "KeyError: cushion" := rfl

/-- C3 (confirmed): on a condition-store hit, the join copies the stored
cushion and selects `dirt_goal` for a dirt-surface run ('ダ' or 'ダート') and
`turf_goal` for any other surface; on a miss it nulls both fields. -/
theorem C3_join_field_selection (db : List (String × DbEntry))
    (r : HistoricalRun) :
    (∀ entry c, dictGet db (joinKey r) = some entry → entry.cushion = some c →
      linkRun db r = .ok { r with
        cushion := some c,
        moisture := if r.surface = "ダ" ∨ r.surface = "ダート" then
            entry.dirt_goal else entry.turf_goal }) ∧
    (dictGet db (joinKey r) = none →
      linkRun db r = .ok { r with cushion := none, moisture := none }) := by
  constructor
  · intro entry c hlook hcu
    by_cases hs : r.surface = "ダ" ∨ r.surface = "ダート" <;>
      simp [linkRun, hlook, hcu, hs]
  · intro hlook
    simp [linkRun, hlook]

/-- C3 at the specification's concrete example: key `20260215_東京` with
cushion 9.8, turf 11.2, dirt 4.5 joins a turf run to (9.8, 11.2), a dirt run
to (9.8, 4.5), and a miss nulls both. -/
theorem C3_join_field_selection_witness :
    linkRun dbEx runTurf =
      .ok { runTurf with cushion := some 9.8, moisture := some 11.2 } ∧
    linkRun dbEx runDirt =
      .ok { runDirt with cushion := some 9.8, moisture := some 4.5 } ∧
    linkRun [] runTurf =
      .ok { runTurf with cushion := none, moisture := none } := by
  have h1 := (C3_join_field_selection dbEx runTurf).1
    { cushion := some 9.8, turf_goal := some 11.2, dirt_goal := some 4.5 }
    9.8 rfl rfl
  have h2 := (C3_join_field_selection dbEx runDirt).1
    { cushion := some 9.8, turf_goal := some 11.2, dirt_goal := some 4.5 }
    9.8 rfl rfl
  refine ⟨?_, ?_, (C3_join_field_selection [] runTurf).2 rfl⟩
  · rw [h1, if_neg (by decide)]
  · rw [h2, if_pos (by decide)]

/-- C7 (confirmed): venue decoding is a total function; code "05" decodes to
東京, and any code outside the ten-entry table decodes to the sentinel "?". -/
theorem C7_venue_decode :
    decodeVenue "05" = "東京" ∧
    ∀ code : String, code ∉ VENUE_CODES.map Prod.fst → decodeVenue code = "?" := by
  constructor
  · rfl
  · intro code hcode
    simp only [VENUE_CODES, List.map, List.mem_cons, List.not_mem_nil,
      or_false] at hcode
    push_neg at hcode
    obtain ⟨h1, h2, h3, h4, h5, h6, h7, h8, h9, h10⟩ := hcode
    simp [decodeVenue, dictGet, VENUE_CODES,
      h1, h2, h3, h4, h5, h6, h7, h8, h9, h10]

/-- C7 at concrete inputs: "05" is 東京 and the unrecognized "99" is "?". -/
theorem C7_venue_decode_witness :
    decodeVenue "05" = "東京" ∧ decodeVenue "99" = "?" :=
  ⟨C7_venue_decode.1, C7_venue_decode.2 "99" (by decide)⟩

/-! ### Renderer data path (`generate_scatter_html`, pipeline.py:261-296) -/

/-- The three comparison categories assigned in the renderer loop
(pipeline.py:275-280): `'same_dist'`, `'diff_dist'`, `'diff_surface'`. -/
inductive Category
  | same_dist
  | diff_dist
  | diff_surface
deriving Repr, DecidableEq

/-- The category branch of the renderer loop (pipeline.py:275-280). -/
def classify (runSurface : String) (runDistance : Nat)
    (targetSurface : String) (targetDistance : Nat) : Category :=
  if runSurface ≠ targetSurface then .diff_surface
  else if runDistance = targetDistance then .same_dist
  else .diff_dist

/-- `r['result'] is not None and r['result'] <= 3` (pipeline.py:292). -/
def goodResult : Option Nat → Bool
  | some n => n ≤ 3
  | none => false

/-- One element of the embedded `js_races` array (pipeline.py:282-293). -/
structure JsRace where
  date : String
  venue : String
  surface : String
  distance : Nat
  race_name : String
  result : Option Nat
  cushion : ℚ
  moisture : ℚ
  cat : Category
  good : Bool
deriving Repr, DecidableEq

/-- The record appended for a run that passed the null filter
(pipeline.py:282-293), given its non-null cushion `c` and moisture `m`. -/
def mkJsRace (ts : String) (td : Nat) (r : HistoricalRun) (c m : ℚ) : JsRace :=
  { date := r.date, venue := r.venue, surface := r.surface,
    distance := r.distance, race_name := r.race_name, result := r.result,
    cushion := c, moisture := m,
    cat := classify r.surface r.distance ts td,
    good := goodResult r.result }

/-- The inner `for r in races` loop of `generate_scatter_html`
(pipeline.py:272-293): skip a run when cushion or moisture is `None`, else
classify it and append its embedded record. -/
def buildJsRaces (ts : String) (td : Nat) (runs : List HistoricalRun) :
    List JsRace :=
  runs.filterMap fun r =>
    match r.cushion, r.moisture with
    | some c, some m => some (mkJsRace ts td r c m)
    | _, _ => none

/-- The `js_horses` value embedded into the document (pipeline.py:269-294):
one entry per horse, in dict insertion order, carrying that horse's embedded
runs; the target surface and distance come from `race_info`. -/
def build_js_horses (rd : RaceData) : List (String × List JsRace) :=
  rd.horses.map fun h =>
    (h.1, buildJsRaces rd.race_info.surface rd.race_info.distance h.2)

/-- The returned counters of `generate_scatter_html` (pipeline.py:565-567):
`(total_pts, horses_with_data, len(js_horses))`. -/
def scatterStats (rd : RaceData) : Nat × Nat × Nat :=
  let js := build_js_horses rd
  ((js.map fun h => h.2.length).sum,
   (js.filter fun h => !h.2.isEmpty).length,
   js.length)

/-- The identifying fields of an embedded run, used to state order
preservation. -/
def jsRaceKey (j : JsRace) : String × String × String :=
  (j.date, j.venue, j.race_name)

/-- The identifying fields of a source run. -/
def runRaceKey (r : HistoricalRun) : String × String × String :=
  (r.date, r.venue, r.race_name)

/-- `filterMap` keeps kept elements in source order: mapping the output with
`g` is a sublist of mapping the input with `g'` when `g ∘ f = g'` on kept
elements. -/
theorem filterMap_map_sublist {α β γ : Type} (f : α → Option β) (g : β → γ)
    (g' : α → γ) (hfg : ∀ a b, f a = some b → g b = g' a) :
    ∀ l : List α, ((l.filterMap f).map g).Sublist (l.map g')
  | [] => List.Sublist.refl _
  | a :: l => by
    cases hfa : f a with
    | none =>
      rw [List.map_cons, List.filterMap_cons_none hfa]
      exact (filterMap_map_sublist f g g' hfg l).cons _
    | some b =>
      rw [List.map_cons, List.filterMap_cons_some hfa, List.map_cons,
        hfg a b hfa]
      exact (filterMap_map_sublist f g g' hfg l).cons₂ _

/-! ### Claims C4, C5, C6 -/

/-- C4 (confirmed): for a run with non-null cushion and moisture, the
classifier is total with surface dominating distance: the three categories
are each assigned exactly under the stated mutually exclusive conditions. -/
theorem C4_classifier_precedence (h : HistoricalRun) (ts : String) (td : Nat)
    (_hc : h.cushion ≠ none) (_hm : h.moisture ≠ none) :
    (classify h.surface h.distance ts td = .diff_surface ↔ h.surface ≠ ts) ∧
    (classify h.surface h.distance ts td = .same_dist ↔
      h.surface = ts ∧ h.distance = td) ∧
    (classify h.surface h.distance ts td = .diff_dist ↔
      h.surface = ts ∧ h.distance ≠ td) := by
  unfold classify
  by_cases hsurf : h.surface = ts <;> by_cases hdist : h.distance = td <;>
    simp [hsurf, hdist]

/-- A joined turf run at the target distance. -/
def runSame : HistoricalRun :=
  { runTurf with cushion := some 9.8, moisture := some 11.2 }

/-- The same joined run over a longer distance. -/
def runLonger : HistoricalRun := { runSame with distance := 2000 }

/-- The same joined run on the other surface. -/
def runOtherSurf : HistoricalRun := { runSame with surface := "ダ" }

/-- C4 at the specification's example target (turf 1600m): same distance,
different distance and different surface each get their category. -/
theorem C4_classifier_witness :
    classify runSame.surface runSame.distance "芝" 1600 =
      Category.same_dist ∧
    classify runLonger.surface runLonger.distance "芝" 1600 =
      Category.diff_dist ∧
    classify runOtherSurf.surface runOtherSurf.distance "芝" 1600 =
      Category.diff_surface :=
  ⟨(C4_classifier_precedence runSame "芝" 1600 (by decide)
      (by decide)).2.1.mpr ⟨rfl, rfl⟩,
   (C4_classifier_precedence runLonger "芝" 1600 (by decide)
      (by decide)).2.2.mpr ⟨rfl, by decide⟩,
   (C4_classifier_precedence runOtherSurf "芝" 1600 (by decide)
      (by decide)).1.mpr (by decide)⟩

/-- C5 (confirmed): the embedded run list contains exactly the runs with
both cushion and moisture non-null — every such run's record is embedded,
and every embedded record stems from a run with both fields non-null. -/
theorem C5_renderer_exclusion (ts : String) (td : Nat)
    (runs : List HistoricalRun) :
    (∀ r ∈ runs, ∀ c m : ℚ, r.cushion = some c → r.moisture = some m →
      mkJsRace ts td r c m ∈ buildJsRaces ts td runs) ∧
    (∀ j ∈ buildJsRaces ts td runs, ∃ r ∈ runs,
      r.cushion = some j.cushion ∧ r.moisture = some j.moisture ∧
      j = mkJsRace ts td r j.cushion j.moisture) := by
  constructor
  · intro r hr c m hc hm
    unfold buildJsRaces
    rw [List.mem_filterMap]
    exact ⟨r, hr, by rw [hc, hm]⟩
  · intro j hj
    unfold buildJsRaces at hj
    rw [List.mem_filterMap] at hj
    obtain ⟨r, hr, hfr⟩ := hj
    cases hc : r.cushion with
    | none => rw [hc] at hfr; cases hfr
    | some c =>
      cases hm : r.moisture with
      | none => rw [hc, hm] at hfr; cases hfr
      | some m =>
        rw [hc, hm] at hfr
        cases hfr
        exact ⟨r, hr, hc, hm, rfl⟩

/-- C5 at a concrete input: in a list holding a joined run and an unjoined
one, the joined run's record is embedded. -/
theorem C5_renderer_exclusion_witness :
    mkJsRace "芝" 1600 runSame 9.8 11.2 ∈
      buildJsRaces "芝" 1600 [runSame, runHit] :=
  (C5_renderer_exclusion "芝" 1600 [runSame, runHit]).1 runSame
    (List.mem_cons_self _ _) 9.8 11.2 rfl rfl

/-- C6 (confirmed): the embedded data is a pure function of
`(raceData, target)` — identical inputs give identical embedded data — and
ordering is preserved: horses appear in acquisition order and each horse's
embedded runs are an in-order sublist of its acquired runs. -/
theorem C6_renderer_determinism (rd₁ rd₂ : RaceData) (h : rd₁ = rd₂) :
    build_js_horses rd₁ = build_js_horses rd₂ ∧
    (build_js_horses rd₁).map Prod.fst = rd₁.horses.map Prod.fst ∧
    ∀ p ∈ rd₁.horses,
      ((buildJsRaces rd₁.race_info.surface rd₁.race_info.distance p.2).map
          jsRaceKey).Sublist (p.2.map runRaceKey) := by
  refine ⟨by rw [h], by simp [build_js_horses], ?_⟩
  intro p _
  apply filterMap_map_sublist
  intro r j hrj
  cases hc : r.cushion with
  | none => rw [hc] at hrj; cases hrj
  | some c =>
    cases hm : r.moisture with
    | none => rw [hc, hm] at hrj; cases hrj
    | some m =>
      rw [hc, hm] at hrj
      cases hrj
      rfl

/-- C6 discharged at a concrete input: the embedded horse list of `rdHit`
keeps the acquisition order of its horses. -/
theorem C6_renderer_determinism_witness :
    (build_js_horses rdHit).map Prod.fst = rdHit.horses.map Prod.fst :=
  (C6_renderer_determinism rdHit rdHit rfl).2.1

/-! ### Index builder (`generate_index`, pipeline.py:723-779) -/

/-- One entry of `results_summary` (pipeline.py:703):
`(venue, race_num, race_name, total, pts)`. -/
structure Summary where
  venue : String
  rnum : Nat
  rname : String
  total : Nat
  pts : Nat
deriving Repr, DecidableEq

/-- The hardcoded venue priority order of `generate_index` (pipeline.py:763). -/
def venuePriority : List String :=
  ["東京", "京都", "小倉", "中山", "阪神", "中京", "新潟", "福島", "函館", "札幌"]

/-- The per-venue group of the `venues` dict (pipeline.py:725-729): summaries
with that venue, in batch order. -/
def venueRaces (ss : List Summary) (v : String) : List Summary :=
  ss.filter fun s => s.venue = v

/-- `sorted(venues[venue])` compares the `(rnum, rname, total, pts)` tuples
lexicographically; this is that tuple under the lexicographic order. -/
def summaryKey (s : Summary) : ℕ ×ₗ (String ×ₗ (ℕ ×ₗ ℕ)) :=
  toLex (s.rnum, toLex (s.rname, toLex (s.total, s.pts)))

/-- The comparison used by `sorted(venues[venue])` (pipeline.py:768). -/
def summaryLe (a b : Summary) : Prop := summaryKey a ≤ summaryKey b

instance : DecidableRel summaryLe := fun a b =>
  inferInstanceAs (Decidable (summaryKey a ≤ summaryKey b))

instance : IsTotal Summary summaryLe :=
  ⟨fun a b => le_total (summaryKey a) (summaryKey b)⟩

instance : IsTrans Summary summaryLe :=
  ⟨fun _ _ _ hab hbc => le_trans hab hbc⟩

/-- `sorted(venues[venue])` (pipeline.py:768).  Python sorts stably on the
full summary tuple; two key-equal summaries are identical records, so the
stable insertion sort computes the same list as Python's sort. -/
def sortRaces (l : List Summary) : List Summary := l.insertionSort summaryLe

/-- The venue-section loop of `generate_index` (pipeline.py:763-772): venues
are emitted in the hardcoded priority order, a venue absent from the batch is
skipped (`if venue not in venues: continue`), and each emitted section lists
its races sorted. -/
def generate_index (ss : List Summary) : List (String × List Summary) :=
  venuePriority.filterMap fun v =>
    if venueRaces ss v = [] then none
    else some (v, sortRaces (venueRaces ss v))

/-- The emitted venue names are the priority list filtered to venues with at
least one race, for any priority list. -/
theorem index_sections_venues (ss : List Summary) :
    ∀ l : List String,
      ((l.filterMap fun v => if venueRaces ss v = [] then none
          else some (v, sortRaces (venueRaces ss v))).map Prod.fst) =
        l.filter fun v => !(venueRaces ss v).isEmpty
  | [] => rfl
  | v :: l => by
    by_cases hv : venueRaces ss v = [] <;>
      simp [List.filterMap_cons, List.filter_cons, hv,
        index_sections_venues ss l]

/-- The comparison of `sorted` is nondecreasing on race numbers. -/
theorem summaryLe_rnum {a b : Summary} (h : summaryLe a b) :
    a.rnum ≤ b.rnum := by
  rcases (Prod.Lex.le_iff _ _).mp h with hlt | ⟨heq, _⟩
  · exact le_of_lt hlt
  · exact le_of_eq heq

/-! ### Claim C8 -/

/-- C8 (confirmed): the index emits exactly the venues of the priority list
that have at least one race, in priority order; every emitted section is
non-empty, holds exactly that venue's races, and lists them with race
numbers ascending. -/
theorem C8_index_order (ss : List Summary) :
    ((generate_index ss).map Prod.fst =
      venuePriority.filter fun v => !(venueRaces ss v).isEmpty) ∧
    ∀ p ∈ generate_index ss,
      p.2 ≠ [] ∧ p.2.Perm (venueRaces ss p.1) ∧
      p.2.Pairwise fun a b => a.rnum ≤ b.rnum := by
  refine ⟨index_sections_venues ss venuePriority, ?_⟩
  intro p hp
  unfold generate_index at hp
  rw [List.mem_filterMap] at hp
  obtain ⟨v, _, hv⟩ := hp
  by_cases hempty : venueRaces ss v = []
  · rw [if_pos hempty] at hv; cases hv
  · rw [if_neg hempty] at hv
    cases hv
    refine ⟨?_, List.perm_insertionSort summaryLe _, ?_⟩
    · intro hnil
      dsimp only [sortRaces] at hnil
      have hperm := List.perm_insertionSort summaryLe (venueRaces ss v)
      rw [hnil] at hperm
      exact hempty hperm.symm.eq_nil
    · exact (List.sorted_insertionSort summaryLe _).imp fun h => summaryLe_rnum h

/-- A three-race batch over two venues, 中山 first in batch order. -/
def summariesEx : List Summary :=
  [{ venue := "中山", rnum := 11, rname := "B", total := 16, pts := 40 },
   { venue := "東京", rnum := 11, rname := "A", total := 18, pts := 50 },
   { venue := "東京", rnum := 9, rname := "C", total := 10, pts := 20 }]

/-- C8 at a concrete batch: 東京 is emitted before 中山 (priority order, not
batch order), the eight raceless venues are omitted, and the 東京 section is
sorted with race numbers ascending. -/
theorem C8_index_order_witness :
    (generate_index summariesEx).map Prod.fst = ["東京", "中山"] ∧
    (sortRaces (venueRaces summariesEx "東京")).Pairwise
      (fun a b => a.rnum ≤ b.rnum) := by
  have hmem : ("東京", sortRaces (venueRaces summariesEx "東京")) ∈
      generate_index summariesEx := by decide
  exact ⟨(C8_index_order summariesEx).1.trans (by decide),
    ((C8_index_order summariesEx).2 _ hmem).2.2⟩

/-! ### Main loop (`main`, pipeline.py:571-720) -/

/-- One venue's live measurements as assembled by `fetch_jra_live`
(pipeline.py:37-75).  Each field is doubly optional: the outer layer models
whether the key is present in the dict, the inner layer a stored `None`
(the moisture page stores an explicit `None` when a surface is missing). -/
structure LiveEntry where
  cushion : Option (Option ℚ)
  turf_moisture : Option (Option ℚ)
  dirt_moisture : Option (Option ℚ)
deriving Repr, DecidableEq

/-- `jra_live.get(venue, {}).get('cushion', 9.5)` (pipeline.py:687). -/
def targetCushion (live : List (String × LiveEntry)) (venue : String) :
    Option ℚ :=
  match dictGet live venue with
  | none => some 9.5
  | some e =>
    match e.cushion with
    | none => some 9.5
    | some v => v

/-- The target-moisture selection (pipeline.py:688-691): the dirt field with
default 5.0 when the race surface is 'ダ', else the turf field with default
12.0. -/
def targetMoisture (live : List (String × LiveEntry)) (venue surface : String) :
    Option ℚ :=
  if surface = "ダ" then
    match dictGet live venue with
    | none => some 5
    | some e =>
      match e.dirt_moisture with
      | none => some 5
      | some v => v
  else
    match dictGet live venue with
    | none => some 12
    | some e =>
      match e.turf_moisture with
      | none => some 12
      | some v => v

/-- One race of the list built by `get_race_list` (pipeline.py:109-117). -/
structure RaceEntry where
  race_id : String
  venue : String
  race_num : Nat
  race_name : String
  surface : String
  distance : Nat
deriving Repr, DecidableEq

/-- The race filtering of `main` (pipeline.py:594-601): optional venue
filter, optional race-number filter, then unconditional removal of obstacle
('障') races. -/
def filterRaces (races : List RaceEntry) (venueArg : Option String)
    (raceArg : Option Nat) : List RaceEntry :=
  let races1 : List RaceEntry := match venueArg with
    | some v => races.filter (fun r => r.venue = v)
    | none => races
  let races2 : List RaceEntry := match raceArg with
    | some n => races1.filter (fun r => r.race_num = n)
    | none => races1
  races2.filter (fun r => r.surface ≠ "障")

/-- The summary row appended for a processed race (pipeline.py:697-703):
`(venue, race_num, race_name, total, pts)` with `total` and `pts` returned
by `generate_scatter_html`. -/
def summaryOf (race : RaceEntry) (rd : RaceData) : Summary :=
  { venue := race.venue, rnum := race.race_num, rname := race.race_name,
    total := (scatterStats rd).2.2, pts := (scatterStats rd).1 }

/-- The per-race loop of `main` (pipeline.py:655-703).  `fetch` abstracts the
cache-or-scrape acquisition (pipeline.py:663-681): `none` is the
`scrape_race_data` failure that skips the race; a `KeyError` raised inside
`link_cushion_data` propagates and terminates the run (`.error`). -/
def processRaces (fetch : String → Option RaceData)
    (db : List (String × DbEntry)) :
    List RaceEntry → Except String (List Summary)
  | [] => .ok []
  | race :: rest =>
    match fetch race.race_id with
    | none => processRaces fetch db rest
    | some rd =>
      match link_cushion_data rd db with
      | .error e => .error e
      | .ok rd' =>
        match processRaces fetch db rest with
        | .error e => .error e
        | .ok rest' => .ok (summaryOf race rd' :: rest')

/-- The generation phase of `main`: filter the race list, then process each
remaining race into its artifact summary. -/
def mainSummaries (races : List RaceEntry) (venueArg : Option String)
    (raceArg : Option Nat) (fetch : String → Option RaceData)
    (db : List (String × DbEntry)) : Except String (List Summary) :=
  processRaces fetch db (filterRaces races venueArg raceArg)

/-- Every produced summary stems from a race of the processed list whose
acquisition succeeded and whose join succeeded. -/
theorem processRaces_mem {fetch : String → Option RaceData}
    {db : List (String × DbEntry)} :
    ∀ {l : List RaceEntry} {ss : List Summary},
      processRaces fetch db l = .ok ss →
      ∀ s ∈ ss, ∃ race ∈ l, ∃ rd rd', fetch race.race_id = some rd ∧
        link_cushion_data rd db = .ok rd' ∧ s = summaryOf race rd'
  | [], ss, h => by
    cases h
    intro s hs
    cases hs
  | race :: rest, ss, h => by
    unfold processRaces at h
    cases hf : fetch race.race_id with
    | none =>
      rw [hf] at h
      intro s hs
      obtain ⟨race0, hrace0, rest0⟩ := processRaces_mem h s hs
      exact ⟨race0, List.mem_cons_of_mem _ hrace0, rest0⟩
    | some rd =>
      rw [hf] at h
      dsimp only at h
      cases hl : link_cushion_data rd db with
      | error e => rw [hl] at h; cases h
      | ok rd' =>
        rw [hl] at h
        cases h2 : processRaces fetch db rest with
        | error e => rw [h2] at h; cases h
        | ok rest' =>
          rw [h2] at h
          cases h
          intro s hs
          rcases List.mem_cons.mp hs with heq | hmem
          · exact ⟨race, List.mem_cons_self _ _, rd, rd', hf, hl, heq⟩
          · obtain ⟨race0, hrace0, rest0⟩ := processRaces_mem h2 s hmem
            exact ⟨race0, List.mem_cons_of_mem _ hrace0, rest0⟩

/-! ### Claims C9, C10 -/

/-- C9 (confirmed): when the live snapshot has no entry for the race's
venue, the target point defaults to cushion 9.5 and to moisture 5.0 for a
dirt ('ダ') race and 12.0 for a turf ('芝') race. -/
theorem C9_target_fallback (live : List (String × LiveEntry))
    (venue surface : String) (h : dictGet live venue = none) :
    targetCushion live venue = some 9.5 ∧
    (surface = "ダ" → targetMoisture live venue surface = some 5) ∧
    (surface = "芝" → targetMoisture live venue surface = some 12) := by
  refine ⟨?_, ?_, ?_⟩
  · unfold targetCushion
    rw [h]
  · intro hd
    unfold targetMoisture
    rw [if_pos hd, h]
  · intro ht
    unfold targetMoisture
    rw [if_neg (by rw [ht]; decide), h]

/-- C9 at a concrete input: an empty live snapshot yields the defaults for a
turf race and for a dirt race at 小倉. -/
theorem C9_target_fallback_witness :
    targetCushion [] "小倉" = some 9.5 ∧
    targetMoisture [] "小倉" "ダ" = some 5 ∧
    targetMoisture [] "小倉" "芝" = some 12 :=
  ⟨(C9_target_fallback [] "小倉" "芝" rfl).1,
   (C9_target_fallback [] "小倉" "ダ" rfl).2.1 rfl,
   (C9_target_fallback [] "小倉" "芝" rfl).2.2 rfl⟩

/-- C10 (confirmed): the race filter of `main` removes every obstacle ('障')
race before any acquisition, and every artifact/index summary produced by
the per-race loop stems from a filtered — hence non-obstacle — race. -/
theorem C10_obstacle_exclusion (races : List RaceEntry)
    (venueArg : Option String) (raceArg : Option Nat)
    (fetch : String → Option RaceData) (db : List (String × DbEntry))
    (ss : List Summary)
    (h : mainSummaries races venueArg raceArg fetch db = .ok ss) :
    (∀ r ∈ filterRaces races venueArg raceArg, r.surface ≠ "障") ∧
    (∀ s ∈ ss, ∃ race ∈ filterRaces races venueArg raceArg,
      race.surface ≠ "障" ∧ ∃ rd rd', fetch race.race_id = some rd ∧
        link_cushion_data rd db = .ok rd' ∧ s = summaryOf race rd') := by
  have hfilter : ∀ r ∈ filterRaces races venueArg raceArg,
      r.surface ≠ "障" := by
    intro r hr
    unfold filterRaces at hr
    dsimp only at hr
    have hmem := List.of_mem_filter hr
    simpa using hmem
  refine ⟨hfilter, ?_⟩
  intro s hs
  obtain ⟨race, hrace, hrest⟩ := processRaces_mem h s hs
  exact ⟨race, hrace, hfilter race hrace, hrest⟩

/-- An obstacle race and a turf race on the same card. -/
def raceObstacle : RaceEntry :=
  { race_id := "202606010209", venue := "中山", race_num := 9,
    race_name := "障害オープン", surface := "障", distance := 3200 }

/-- A turf race that survives the filter. -/
def raceFlat : RaceEntry :=
  { race_id := "202605010211", venue := "東京", race_num := 11,
    race_name := "例", surface := "芝", distance := 1600 }

/-- The acquisition oracle used by the C10 witness: only `raceFlat`'s race
id resolves, to `rdHit`. -/
def fetchEx (rid : String) : Option RaceData :=
  if rid = "202605010211" then some rdHit else none

/-- C10 discharged at a concrete input: with an obstacle race and a flat
race listed, the filtered list drops the obstacle race, and the single
produced summary stems from the flat race. -/
theorem C10_obstacle_exclusion_witness :
    raceObstacle.surface = "障" ∧
    filterRaces [raceObstacle, raceFlat] none none = [raceFlat] ∧
    raceFlat.surface ≠ "障" :=
  ⟨rfl, by decide,
   (C10_obstacle_exclusion [raceObstacle, raceFlat] none none fetchEx []
      [summaryOf raceFlat rdHitMiss] rfl).1 raceFlat (by decide)⟩

end KeibaScatter
